import Mathlib

/-!
Shallow embedding of `src/patent_database/operations.py` (patent-database
repository): payload builder, HTTP retry client, operation dispatcher and the
CSV-export front end, together with proofs of the specification claims.

Python values are embedded as the inductive `Val`; Python exceptions are
embedded as the `Except String` monad (the string is the exception message).
Floating-point numbers and Python's cross-type numeric equality
(`True == 1`) are not modelled; none of the verified claims exercise them.
-/

/-- A Python/JSON-style value: `None`, booleans, integers, strings, lists
and string-keyed dicts (insertion ordered, as in Python 3.7+). -/
inductive Val where
  | none
  | bool (b : Bool)
  | int (n : Int)
  | str (s : String)
  | list (xs : List Val)
  | dict (kvs : List (String × Val))

/-- Ordered string-keyed dictionary, the representation of Python dicts. -/
abbrev Dict := List (String × Val)

mutual

/-- Structural equality of values, the embedding of Python `==` on the
value shapes that occur in the program. -/
def valBeq : Val → Val → Bool
  | .none, .none => true
  | .bool a, .bool b => a == b
  | .int a, .int b => a == b
  | .str a, .str b => a == b
  | .list xs, .list ys => valBeqItems xs ys
  | .dict xs, .dict ys => valBeqPairs xs ys
  | _, _ => false

/-- Elementwise equality of value lists. -/
def valBeqItems : List Val → List Val → Bool
  | [], [] => true
  | x :: xs, y :: ys => valBeq x y && valBeqItems xs ys
  | _, _ => false

/-- Elementwise equality of key-value pair lists. -/
def valBeqPairs : List (String × Val) → List (String × Val) → Bool
  | [], [] => true
  | (k, x) :: xs, (l, y) :: ys => k == l && valBeq x y && valBeqPairs xs ys
  | _, _ => false

end

instance : BEq Val := ⟨valBeq⟩

/-- Python type name of a value, used in exception messages. -/
def typeName : Val → String
  | .none => "NoneType"
  | .bool _ => "bool"
  | .int _ => "int"
  | .str _ => "str"
  | .list _ => "list"
  | .dict _ => "dict"

mutual

/-- The embedding of Python `repr` on embedded values (string quoting uses
double quotes; no claim depends on the quoting character). -/
def pyRepr : Val → String
  | .none => "None"
  | .bool b => if b then "True" else "False"
  | .int n => toString n
  | .str s => "\"" ++ s ++ "\""
  | .list xs => "[" ++ pyReprItems xs ++ "]"
  | .dict kvs => "\x7b" ++ pyReprPairs kvs ++ "\x7d"

/-- Comma-separated rendering of list elements. -/
def pyReprItems : List Val → String
  | [] => ""
  | [v] => pyRepr v
  | v :: vs => pyRepr v ++ ", " ++ pyReprItems vs

/-- Comma-separated rendering of dict entries. -/
def pyReprPairs : List (String × Val) → String
  | [] => ""
  | [(k, v)] => "\"" ++ k ++ "\": " ++ pyRepr v
  | (k, v) :: kvs => "\"" ++ k ++ "\": " ++ pyRepr v ++ ", " ++ pyReprPairs kvs

end

/-- The embedding of Python `str` (as used by f-string interpolation). -/
def pyStr : Val → String
  | .str s => s
  | v => pyRepr v

/-- Python truthiness of a value. -/
def truthy : Val → Bool
  | .none => false
  | .bool b => b
  | .int n => n != 0
  | .str s => s != ""
  | .list xs => !xs.isEmpty
  | .dict kvs => !kvs.isEmpty

/-- Lookup in an ordered dict. -/
def dget : Dict → String → Option Val
  | [], _ => Option.none
  | (k0, v0) :: rest, k => if k0 = k then some v0 else dget rest k

/-- Lookup with default, the embedding of `dict.get(k, d)`. -/
def dgetD (d : Dict) (k : String) (v : Val) : Val := (dget d k).getD v

/-- Assignment `d[k] = v` on an insertion-ordered dict: an existing key is
updated in place (keeping its position), a fresh key is appended. -/
def upsert : Dict → String → Val → Dict
  | [], k, v => [(k, v)]
  | (k0, v0) :: rest, k, v =>
      if k0 = k then (k, v) :: rest else (k0, v0) :: upsert rest k v

/-- Key sequence of an ordered dict. -/
def keys (d : Dict) : List String := d.map Prod.fst

/-- The embedding of `v.get(k, dflt)`: dict lookup with default, raising
`AttributeError` on every non-dict receiver. -/
def pyGetD (v : Val) (k : String) (dflt : Val) : Except String Val :=
  match v with
  | .dict kvs => .ok (dgetD kvs k dflt)
  | _ => .error ("AttributeError: " ++ typeName v ++ " object has no attribute get")

/-- The embedding of one-argument `v.get(k)`, which defaults to `None`. -/
def pyGet (v : Val) (k : String) : Except String Val := pyGetD v k .none

/-- ASCII uppercase of a string, the embedding of `str.upper` (written over
the character list so that it evaluates inside the kernel). -/
def upperStr (s : String) : String := String.mk (s.data.map Char.toUpper)

/-- Surrounding-whitespace strip, as performed by Python `int(...)` on
string arguments (written over the character list so that it evaluates
inside the kernel). -/
def trimStr (s : String) : String :=
  String.mk (((s.data.dropWhile Char.isWhitespace).reverse.dropWhile
    Char.isWhitespace).reverse)

/-- Value of a non-empty all-decimal-digit character list. -/
def digitsVal : List Char → Option Nat
  | [] => Option.none
  | cs =>
      if cs.all Char.isDigit
      then some (cs.foldl (fun a c => a * 10 + (c.toNat - 48)) 0)
      else Option.none

/-- Decimal integer parse with optional sign, the number grammar accepted by
Python `int(...)` (digit-group underscores are not modelled). -/
def strToInt (s : String) : Option Int :=
  match s.data with
  | '-' :: cs => (digitsVal cs).map (fun n => -(n : Int))
  | '+' :: cs => (digitsVal cs).map (fun n => (n : Int))
  | cs => (digitsVal cs).map (fun n => (n : Int))

/-- The embedding of Python `int(...)` on a string argument. -/
def pyIntOfString (s : String) : Except String Int :=
  match strToInt (trimStr s) with
  | some n => .ok n
  | Option.none => .error ("ValueError: invalid literal for int with base 10: " ++ s)

/-- The embedding of Python `int(...)` (no floats in the model). -/
def pyInt : Val → Except String Int
  | .int n => .ok n
  | .bool b => .ok (if b then 1 else 0)
  | .str s => pyIntOfString s
  | v => .error ("TypeError: int argument must be a string or a number, not " ++ typeName v)

/-- The embedding of `v.upper()`. -/
def pyUpper : Val → Except String String
  | .str s => .ok (upperStr s)
  | v => .error ("AttributeError: " ++ typeName v ++ " object has no attribute upper")

/-- The embedding of iteration (`for x in v`): lists yield their elements,
strings their characters, dicts their keys; other values raise `TypeError`. -/
def pyIter : Val → Except String (List Val)
  | .list xs => .ok xs
  | .str s => .ok (s.data.map fun c => .str c.toString)
  | .dict kvs => .ok (kvs.map fun kv => .str kv.1)
  | v => .error ("TypeError: " ++ typeName v ++ " object is not iterable")

/-- The embedding of `v.append(x)` (functional: returns the extended list). -/
def pyAppend (v : Val) (x : Val) : Except String Val :=
  match v with
  | .list xs => .ok (.list (xs ++ [x]))
  | _ => .error ("AttributeError: " ++ typeName v ++ " object has no attribute append")

/-- The embedding of the membership test `k in v` for a string `k`. -/
def pyContains (v : Val) (k : String) : Except String Bool :=
  match v with
  | .dict kvs => .ok (dget kvs k).isSome
  | .list xs => .ok (xs.contains (.str k))
  | .str s => .ok (k = "" || (s.splitOn k).length > 1)
  | w => .error ("TypeError: argument of type " ++ typeName w ++ " is not iterable")

/-- The embedding of subscription `v[k]` with a string key. -/
def pySubscript (v : Val) (k : String) : Except String Val :=
  match v with
  | .dict kvs =>
      match dget kvs k with
      | some x => .ok x
      | Option.none => .error ("KeyError: " ++ k)
  | .list _ => .error "TypeError: list indices must be integers"
  | .str _ => .error "TypeError: string indices must be integers"
  | w => .error ("TypeError: " ++ typeName w ++ " object is not subscriptable")

/-- The embedding of item assignment `v[k] = x` with a string key
(functional: returns the updated value). -/
def pySetItem (v : Val) (k : String) (x : Val) : Except String Val :=
  match v with
  | .dict kvs => .ok (.dict (upsert kvs k x))
  | w => .error ("TypeError: " ++ typeName w ++ " object does not support item assignment")

/-- Equality of a value with a string literal, the embedding of
`v == "lit"` (only equal strings compare equal). -/
def isStr (v : Val) (s : String) : Bool :=
  match v with
  | .str s0 => s0 = s
  | _ => false

/-- Membership of a value in a list of strings, the embedding of
`v in ["a", "b", ...]`. -/
def valStrIn (v : Val) (l : List String) : Bool :=
  match v with
  | .str s => l.contains s
  | _ => false

/-- Modelled from the spec: `MAX_RESULTS_PER_PAGE` is imported from
`constants.py`, which is not among the provided sources; `routes.py` and the
spec (§4.4, export batch size "e.g. 100") use 100 as the maximum page size.
No claim below depends on the numeric value. -/
def MAX_RESULTS_PER_PAGE : Int := 100

/-- Modelled from the spec: `DEFAULT_SORT_FIELD` is imported from
`constants.py`, which is not among the provided sources; the spec names the
filing-date field as the canonical date field. No claim below depends on the
value. -/
def DEFAULT_SORT_FIELD : Val := .str "applicationMetaData.filingDate"

/-- Modelled from the spec: `SEARCH_TYPES` is imported from `constants.py`,
which is not among the provided sources; §1 of the spec enumerates the seven
query styles. -/
def SEARCH_TYPES : List String :=
  ["simple", "boolean", "wildcard", "field_specific", "range", "filtered", "faceted"]

/-- The hard-coded first filter of every payload
(`build_search_payload`, lines 261-266). -/
def utilityFilter : Val :=
  .dict [("name", .str "applicationMetaData.applicationTypeLabelName"),
         ("value", .list [.str "Utility"])]

/-- The default `fields` list of the payload (lines 253-258). -/
def defaultFields : Val :=
  .list [.str "inventionTitle", .str "applicationNumberText",
         .str "applicationMetaData", .str "inventorNameText"]

/-- The initial `q` entry (lines 272-276): for the `simple` type the search
term (default empty), otherwise the wildcard placeholder. -/
def qInitial (search_type query_params : Val) : Except String Val :=
  if isStr search_type "simple" then pyGetD query_params "term" (.str "")
  else pure (Val.str "*")

/-- Stage 1 of `build_search_payload` (lines 226-293): pagination, sort, the
six base keys in insertion order `fields, filters, pagination, q` then
`rangeFilters` (only when both `dateFrom` and `dateTo` are truthy) and
`sort`. For the `simple` type `q` is `query_params.get('term', '')`,
otherwise the wildcard placeholder. -/
def payload_pre (search_type query_params params : Val) : Except String Dict := do
  let pageV ← pyGetD params "page" (.int 1)
  let page ← pyInt pageV
  let limitV ← pyGetD params "limit" (.int MAX_RESULTS_PER_PAGE)
  let limit ← pyInt limitV
  let offset := (page - 1) * limit
  let pagination : Val := .dict [("offset", .int offset), ("limit", .int limit)]
  let sort_field ← pyGetD params "sort_field" DEFAULT_SORT_FIELD
  let sort_order ← pyGetD params "sort_order" (.str "desc")
  let sortV : Val := .list [.dict [("field", sort_field), ("direction", sort_order)]]
  let fieldsV ← pyGetD params "fields" defaultFields
  let qV ← qInitial search_type query_params
  let date_from ← pyGetD query_params "dateFrom" (.str "")
  let date_to ← pyGetD query_params "dateTo" (.str "")
  let rangePart : Dict :=
    if truthy date_from && truthy date_to then
      [("rangeFilters",
        .list [.dict [("field", .str "applicationMetaData.filingDate"),
                      ("valueFrom", date_from), ("valueTo", date_to)]])]
    else []
  return ("fields", fieldsV) :: ("filters", .list [utilityFilter]) ::
         ("pagination", pagination) :: ("q", qV) ::
         (rangePart ++ [("sort", sortV)])

/-- The term loop of the boolean branch (lines 298-310): `i` is the
`enumerate` index. A term whose `field` and `value` are truthy is rendered;
the term at index 0, and any term whose `operator` is `None`/absent, is
rendered bare as `field:value`; otherwise the uppercased operator is
prefixed (`NOT` rendered identically to the general case). -/
def boolTermsGo : List Val → Nat → Except String (List String)
  | [], _ => .ok []
  | term :: rest, i => do
    let f ← pyGet term "field"
    let v ← pyGet term "value"
    if truthy f && truthy v then
      let op ← pyGet term "operator"
      if i == 0 || op == Val.none then do
        let rs ← boolTermsGo rest (i + 1)
        return (pyStr f ++ ":" ++ pyStr v) :: rs
      else do
        let opDef ← pyGetD term "operator" (.str "AND")
        let opS ← pyUpper opDef
        let s := if opS == "NOT"
          then "NOT " ++ pyStr f ++ ":" ++ pyStr v
          else opS ++ " " ++ pyStr f ++ ":" ++ pyStr v
        let rs ← boolTermsGo rest (i + 1)
        return s :: rs
    else
      boolTermsGo rest (i + 1)

/-- The in-place replace-or-append of the range branch (lines 344-353):
the first existing range filter with the same `field` is overwritten at its
index; otherwise the new filter is appended. -/
def replaceOrAppend : List Val → Val → Val → Except String (List Val)
  | [], _, rf => .ok [rf]
  | x :: xs, field, rf => do
    let f ← pyGet x "field"
    if f == field then
      return rf :: xs
    else do
      let rest ← replaceOrAppend xs field rf
      return x :: rest

/-- Stage 2 of `build_search_payload` (lines 296-370): the search-type
specific branches. -/
def apply_search_type (search_type query_params : Val) (payload : Dict) :
    Except String Dict :=
  if isStr search_type "boolean" then do
    let termsV ← pyGetD query_params "terms" (.list [])
    let terms ← pyIter termsV
    let qs ← boolTermsGo terms 0
    let joined := " ".intercalate qs
    return upsert payload "q" (.str (if joined == "" then "*" else joined))
  else if isStr search_type "wildcard" then do
    let field ← pyGetD query_params "field" (.str "inventionTitle")
    let value ← pyGetD query_params "value" (.str "")
    return upsert payload "q" (.str (pyStr field ++ ":" ++ pyStr value))
  else if isStr search_type "field_specific" then do
    let field ← pyGetD query_params "field" (.str "")
    let value ← pyGetD query_params "value" (.str "")
    return upsert payload "q" (.str (pyStr field ++ ":" ++ pyStr value))
  else if isStr search_type "range" then do
    let field ← pyGetD query_params "field" (.str "applicationMetaData.filingDate")
    let value_from ← pyGetD query_params "valueFrom" (.str "")
    let value_to ← pyGetD query_params "valueTo" (.str "")
    if truthy value_from && truthy value_to then do
      let payload := if (dget payload "rangeFilters").isSome
        then payload
        else upsert payload "rangeFilters" (.list [])
      let range_filter : Val :=
        .dict [("field", field), ("valueFrom", value_from), ("valueTo", value_to)]
      let existing ← pyIter (dgetD payload "rangeFilters" (.list []))
      let replaced ← replaceOrAppend existing field range_filter
      return upsert payload "rangeFilters" (.list replaced)
    else
      return payload
  else if isStr search_type "filtered" then do
    let field ← pyGetD query_params "field" (.str "")
    let value ← pyGetD query_params "value" (.str "")
    if truthy field && truthy value then do
      let appended ← pyAppend (dgetD payload "filters" (.list []))
        (.dict [("name", field), ("value", .list [value])])
      return upsert payload "filters" appended
    else
      return payload
  else if isStr search_type "faceted" then do
    let facets ← pyGetD query_params "facets" (.list [])
    return if truthy facets then upsert payload "facets" facets else payload
  else
    return payload

/-- `build_search_payload` before the final wildcard fallback:
stage 1 followed by the type-specific branch. -/
def build_core (search_type query_params params : Val) : Except String Dict := do
  let payload ← payload_pre search_type query_params params
  apply_search_type search_type query_params payload

/-- The final validation of `build_search_payload` (lines 372-374): when the
`q` entry is missing or falsy it is forced to the wildcard. -/
def applyQFallback (payload : Dict) : Dict :=
  if truthy (dgetD payload "q" .none) then payload
  else upsert payload "q" (.str "*")

/-- The embedding of `build_search_payload(search_type, query_params, params)`
(lines 213-377). -/
def build_search_payload (search_type query_params params : Val) :
    Except String Dict :=
  (build_core search_type query_params params).map applyQFallback

/-- An `OperationResult` failure dict `{'success': False, 'error': msg}`. -/
def errResult (msg : String) : Dict :=
  [("success", .bool false), ("error", .str msg)]

/-- Observable outcome of a core operation up to the network boundary:
either a final result dict was returned without any I/O, or control reached
the outbound POST with the given payload, or the CSV export reached
`format_results_for_csv` with the given results value. -/
inductive Outcome where
  | result (d : Dict)
  | searchSend (payload : Dict)
  | exportFormat (results : Val)

/-- Modelled from the spec: `validate_search_params` lives in `utils.py`,
which is not among the provided sources. §4.2 of the spec states that
malformed query parameters still reach the payload builder, and the
search-type check of §7 is repeated inside `search_patents` itself, so the
validator is modelled as accepting every input (`None` = no error). -/
def validate_search_params (_params : Val) : Option String := Option.none

/-- The embedding of `search_patents(params)` (lines 54-135) up to the
network boundary: validation, the search-type check, payload construction
(whose exceptions are caught HERE, lines 84-91, yielding an
`Error building search payload:` failure), then the outbound request. The
API-key lookup and the HTTP call itself are outside the model boundary;
`searchSend` records the payload that would be posted. -/
def search_patents (params : Val) : Except String Outcome := do
  match validate_search_params params with
  | some e => return .result (errResult e)
  | Option.none =>
  let search_type ← pyGetD params "search_type" (.str "simple")
  if ¬ valStrIn search_type SEARCH_TYPES then
    return .result (errResult ("Invalid search type: " ++ pyStr search_type))
  else
    let query_params ← pyGetD params "query_params" (.dict [])
    match build_search_payload search_type query_params params with
    | .error e =>
        return .result (errResult ("Error building search payload: " ++ e))
    | .ok payload => return .searchSend payload

/-- The pagination-limit override of `export_to_csv` (lines 403-405):
`if 'pagination' in search_params: search_params['pagination']['limit'] = 100`. -/
def export_override (sp : Val) : Except String Val := do
  let hasPag ← pyContains sp "pagination"
  if hasPag then do
    let pag ← pySubscript sp "pagination"
    let pag2 ← pySetItem pag "limit" (.int 100)
    pySetItem sp "pagination" pag2
  else
    return sp

/-- The success path of the export after a search (lines 410-426): prefer
the `results` field, falling back to `patentFileWrapperDataBag`. -/
def export_success_path (d : Dict) : Except String Outcome := do
  let data := dgetD d "data" (.dict [])
  let results ← pyGetD data "results" (.list [])
  if ¬ truthy results then do
    let hasBag ← pyContains data "patentFileWrapperDataBag"
    if hasBag then do
      let results2 ← pyGetD data "patentFileWrapperDataBag" (.list [])
      return .exportFormat results2
    else
      return .exportFormat results
  else
    return .exportFormat results

/-- The embedding of `export_to_csv(params)` (lines 379-436) up to the
formatting/network boundary: direct results are handed to the formatter;
otherwise the embedded search parameters get the (ineffective) limit
override and a search is run, whose failure dict is passed through. -/
def export_to_csv (params : Val) : Except String Outcome := do
  let hasResults ← pyContains params "results"
  if hasResults then do
    let results ← pyGetD params "results" (.list [])
    return .exportFormat results
  else do
    let hasSP ← pyContains params "search_params"
    if hasSP then do
      let sp ← pyGetD params "search_params" (.dict [])
      let sp2 ← export_override sp
      let st ← search_patents sp2
      match st with
      | .result d =>
          if truthy (dgetD d "success" .none) then
            export_success_path d
          else
            return .result
              [("success", .bool false),
               ("error", dgetD d "error" (.str "Failed to retrieve results for export"))]
      | o => return o
    else
      return .result (errResult "No results or search parameters provided for export")

/-- The registry of the dispatcher (lines 31-35). -/
def OPERATIONS : List String := ["search", "export_csv", "test_connection"]

/-- The membership test `operation_type not in operations` (line 37): dict
keys are the three registry strings; unhashable values (lists, dicts) raise
`TypeError` before the dispatch try-block. -/
def registryContains (v : Val) : Except String Bool :=
  match v with
  | .list _ => .error ("TypeError: unhashable type: " ++ typeName v)
  | .dict _ => .error ("TypeError: unhashable type: " ++ typeName v)
  | .str s => .ok (OPERATIONS.contains s)
  | _ => .ok false

/-- Dispatch of the registry entry for `test_connection`: `run_operation`
calls every handler with one positional argument (line 45), while
`test_api_connection` (line 443) is declared with none, so in Python the
call itself raises a `TypeError` before the handler body runs; the dispatch
is embedded as exactly that exception. -/
def dispatch_test_connection (_params : Val) : Except String Outcome :=
  .error "test_api_connection() takes 0 positional arguments but 1 was given"

/-- The embedding of `run_operation(operation_type, params)` (lines 13-52):
`None` params become the empty dict, unknown operation names yield the
`Unknown operation type` failure before any handler runs, and every
exception raised by a handler is caught and converted into an
`Operation error` failure. The outer `Except` layer holds only the
exceptions raised before the try-block (unhashable operation names). -/
def run_operation (operation_type params : Val) : Except String Outcome := do
  let params := if params == Val.none then Val.dict [] else params
  let isKnown ← registryContains operation_type
  if ¬ isKnown then
    return .result (errResult ("Unknown operation type: " ++ pyStr operation_type))
  else
    let dispatched : Except String Outcome :=
      if isStr operation_type "search" then search_patents params
      else if isStr operation_type "export_csv" then export_to_csv params
      else dispatch_test_connection params
    match dispatched with
    | .ok o => return o
    | .error e => return .result (errResult ("Operation error: " ++ e))

/-- One upstream interaction observed by an attempt of the retry loop:
either a response arrived or the POST raised a
`requests.exceptions.RequestException`. -/
inductive NetEvent where
  | response (status : Nat) (retryAfterHeader : Option String)
      (jsonBody : Except String Val) (text : String)
  | netError (msg : String)

/-- The sleep duration of a rate-limited attempt (line 167):
`int(response.headers.get('Retry-After', retry_delay))`. -/
def retryAfterVal (h : Option String) (retry_delay : Int) : Except String Int :=
  pyInt (match h with
         | some s => Val.str s
         | Option.none => Val.int retry_delay)

/-- The attempt loop of `make_api_request` (lines 151-211). `script n` is
the upstream interaction seen by attempt `n` (0-based); `fuel` counts the
attempts remaining in `range(max_retries)`; `sleeps` accumulates the
durations passed to `time.sleep`. The outer `Except` layer holds the
exceptions the loop does not catch (a non-integer `Retry-After` header). -/
def apiLoop (script : Nat → NetEvent) (max_retries : Nat) (retry_delay : Int) :
    Nat → Nat → List Int → Except String (Dict × List Int)
  | _, 0, sleeps => .ok (errResult "Maximum retries exceeded", sleeps)
  | attempt, fuel + 1, sleeps =>
    match script attempt with
    | .netError msg =>
        if attempt < max_retries - 1 then
          apiLoop script max_retries retry_delay (attempt + 1) fuel
            (sleeps ++ [retry_delay])
        else
          .ok (errResult ("API request failed: " ++ msg), sleeps)
    | .response status hdr jsonBody text =>
        if status == 429 && attempt < max_retries - 1 then do
          let ra ← retryAfterVal hdr retry_delay
          apiLoop script max_retries retry_delay (attempt + 1) fuel (sleeps ++ [ra])
        else if status == 200 then
          match jsonBody with
          | .ok data =>
              .ok ([("success", .bool true), ("data", data)], sleeps)
          | .error e =>
              .ok (errResult ("Error parsing API response: " ++ e), sleeps)
        else
          .ok (errResult ("API error: " ++ toString status ++ " - " ++ text.take 200),
               sleeps)

/-- The embedding of `make_api_request(url, headers, payload, max_retries,
retry_delay)` (lines 137-211) against a scripted upstream: returns the
result dict together with the sleep durations performed. -/
def make_api_request (script : Nat → NetEvent) (max_retries : Nat)
    (retry_delay : Int) : Except String (Dict × List Int) :=
  apiLoop script max_retries retry_delay 0 max_retries []

/-- A boolean search term at the specification level: field, value and an
optional operator word. -/
structure BoolTerm where
  field : String
  value : String
  oper : Option String

/-- Encoding of a specification-level boolean term as the dict the web layer
submits (the `operator` key present exactly when an operator was given). -/
def encodeTerm (t : BoolTerm) : Val :=
  .dict (("field", .str t.field) :: ("value", .str t.value) ::
    (match t.oper with
     | some o => [("operator", .str o)]
     | Option.none => []))

/-- Specification-level rendering of one boolean term at `enumerate` index
`i`: the term at index 0 and any term without an operator are rendered bare
as `field:value`; otherwise the uppercased operator is prefixed. -/
def renderBoolTerm (i : Nat) (t : BoolTerm) : String :=
  match t.oper with
  | Option.none => t.field ++ ":" ++ t.value
  | some o =>
      if i = 0 then t.field ++ ":" ++ t.value
      else if upperStr o = "NOT" then "NOT " ++ t.field ++ ":" ++ t.value
      else upperStr o ++ " " ++ t.field ++ ":" ++ t.value

/-- Specification-level boolean query parts: terms with an empty field or
value are skipped but still consume their `enumerate` index. -/
def boolQSpecParts : Nat → List BoolTerm → List String
  | _, [] => []
  | i, t :: ts =>
      if t.field ≠ "" ∧ t.value ≠ "" then
        renderBoolTerm i t :: boolQSpecParts (i + 1) ts
      else
        boolQSpecParts (i + 1) ts

/-- Specification-level boolean query string: the space-joined parts, or the
wildcard when no part survives. -/
def boolQSpec (ts : List BoolTerm) : String :=
  let j := " ".intercalate (boolQSpecParts 0 ts)
  if j = "" then "*" else j

theorem bind_ok_elim {α β : Type} {x : Except String α} {f : α → Except String β}
    {b : β} (h : (x >>= f) = .ok b) : ∃ a, x = .ok a ∧ f a = .ok b := by
  cases x with
  | error e => exact Except.noConfusion h
  | ok a => exact ⟨a, rfl, h⟩

theorem map_ok_elim {α β : Type} {x : Except String α} {f : α → β} {b : β}
    (h : x.map f = .ok b) : ∃ a, x = .ok a ∧ b = f a := by
  cases x with
  | error e => exact Except.noConfusion h
  | ok a => exact ⟨a, rfl, (Except.ok.inj h).symm⟩

theorem dget_upsert_self (d : Dict) (k : String) (v : Val) :
    dget (upsert d k v) k = some v := by
  induction d with
  | nil => simp [upsert, dget]
  | cons kv rest ih =>
      obtain ⟨k0, v0⟩ := kv
      by_cases hk : k0 = k
      · simp [upsert, hk, dget]
      · simp [upsert, hk, dget, ih]

theorem dget_upsert_other (d : Dict) (k k' : String) (v : Val) (h : k' ≠ k) :
    dget (upsert d k v) k' = dget d k' := by
  have hkk : k ≠ k' := Ne.symm h
  induction d with
  | nil => simp [upsert, dget, hkk]
  | cons kv rest ih =>
      obtain ⟨k0, v0⟩ := kv
      by_cases hk : k0 = k
      · subst hk
        simp [upsert, dget, hkk]
      · simp only [upsert, if_neg hk, dget]
        by_cases hk' : k0 = k'
        · simp [hk']
        · simp [hk', ih]

theorem mem_keys_iff_dget_isSome (d : Dict) (k : String) :
    k ∈ keys d ↔ (dget d k).isSome := by
  induction d with
  | nil => simp [keys, dget]
  | cons kv rest ih =>
      obtain ⟨k0, v0⟩ := kv
      by_cases hk : k0 = k
      · simp [keys, dget, hk]
      · simpa [keys, dget, hk, Ne.symm hk] using ih

theorem keys_upsert (d : Dict) (k : String) (v : Val) :
    keys (upsert d k v) = if k ∈ keys d then keys d else keys d ++ [k] := by
  induction d with
  | nil => simp [upsert, keys]
  | cons kv rest ih =>
      obtain ⟨k0, v0⟩ := kv
      by_cases hk : k0 = k
      · subst hk
        simp [upsert, keys]
      · have hne : k ≠ k0 := Ne.symm hk
        simp only [upsert, if_neg hk, keys, List.map_cons] at ih ⊢
        rw [ih]
        by_cases hm : k ∈ List.map Prod.fst rest
        · rw [if_pos hm, if_pos (by simp [hm])]
        · rw [if_neg hm, if_neg ?_, List.cons_append]
          simp only [List.mem_cons]
          push_neg
          exact ⟨hne, hm⟩

theorem keys_upsert_of_mem (d : Dict) (k : String) (v : Val)
    (h : k ∈ keys d) : keys (upsert d k v) = keys d := by
  rw [keys_upsert, if_pos h]

theorem keys_upsert_of_not_mem (d : Dict) (k : String) (v : Val)
    (h : k ∉ keys d) : keys (upsert d k v) = keys d ++ [k] := by
  rw [keys_upsert, if_neg h]

theorem truthy_str_iff (s : String) : truthy (.str s) = true ↔ s ≠ "" := by
  simp [truthy]

theorem applyQFallback_of_falsy (d : Dict)
    (h : truthy (dgetD d "q" .none) = false) :
    dget (applyQFallback d) "q" = some (.str "*") := by
  unfold applyQFallback
  rw [if_neg (by simp [h])]
  exact dget_upsert_self d "q" (.str "*")

theorem applyQFallback_of_truthy (d : Dict)
    (h : truthy (dgetD d "q" .none) = true) : applyQFallback d = d := by
  unfold applyQFallback
  exact if_pos h

theorem applyQFallback_q (d : Dict) :
    ∃ v, dget (applyQFallback d) "q" = some v ∧ truthy v = true := by
  by_cases hc : truthy (dgetD d "q" .none) = true
  · rw [applyQFallback_of_truthy d hc]
    cases he : dget d "q" with
    | none =>
        exfalso
        unfold dgetD at hc
        rw [he] at hc
        simp [truthy] at hc
    | some v =>
        refine ⟨v, rfl, ?_⟩
        unfold dgetD at hc
        rw [he] at hc
        simpa using hc
  · exact ⟨.str "*", applyQFallback_of_falsy d (by simpa using hc),
      by simp [truthy]⟩

theorem dget_applyQFallback_other (d : Dict) (k : String) (h : k ≠ "q") :
    dget (applyQFallback d) k = dget d k := by
  unfold applyQFallback
  by_cases hc : truthy (dgetD d "q" .none) = true
  · rw [if_pos hc]
  · rw [if_neg hc]
    exact dget_upsert_other d "q" k _ h

theorem build_ok_elim {st qp p : Val} {pl : Dict}
    (h : build_search_payload st qp p = .ok pl) :
    ∃ pl1, build_core st qp p = .ok pl1 ∧ pl = applyQFallback pl1 :=
  map_ok_elim h

theorem core_ok_elim {st qp p : Val} {pl : Dict}
    (h : build_core st qp p = .ok pl) :
    ∃ pl0, payload_pre st qp p = .ok pl0 ∧ apply_search_type st qp pl0 = .ok pl := by
  unfold build_core at h
  exact bind_ok_elim h

theorem payload_pre_shape {st qp p : Val} {pl : Dict}
    (h : payload_pre st qp p = .ok pl) :
    ∃ fv pg qv sv r, (r = [] ∨ ∃ rv, r = [("rangeFilters", rv)]) ∧
      pl = ("fields", fv) :: ("filters", .list [utilityFilter]) ::
           ("pagination", pg) :: ("q", qv) :: (r ++ [("sort", sv)]) := by
  unfold payload_pre at h
  obtain ⟨pageV, h1, h⟩ := bind_ok_elim h
  obtain ⟨page, h2, h⟩ := bind_ok_elim h
  obtain ⟨limitV, h3, h⟩ := bind_ok_elim h
  obtain ⟨limit, h4, h⟩ := bind_ok_elim h
  obtain ⟨sf, h5, h⟩ := bind_ok_elim h
  obtain ⟨so, h6, h⟩ := bind_ok_elim h
  obtain ⟨fv, h7, h⟩ := bind_ok_elim h
  obtain ⟨qv, h8, h⟩ := bind_ok_elim h
  obtain ⟨df, h9, h⟩ := bind_ok_elim h
  obtain ⟨dt, h10, h⟩ := bind_ok_elim h
  refine ⟨fv, .dict [("offset", .int ((page - 1) * limit)), ("limit", .int limit)],
    qv, .list [.dict [("field", sf), ("direction", so)]],
    if truthy df && truthy dt then
      [("rangeFilters",
        .list [.dict [("field", .str "applicationMetaData.filingDate"),
                      ("valueFrom", df), ("valueTo", dt)]])]
    else [], ?_, ?_⟩
  · by_cases hdt : (truthy df && truthy dt) = true
    · rw [if_pos hdt]
      exact Or.inr ⟨_, rfl⟩
    · rw [if_neg hdt]
      exact Or.inl rfl
  · exact (Except.ok.inj h).symm

/-- C1: for every search type and every combination of query parameters and
request options on which `build_search_payload` returns, the payload has a
`q` entry that is truthy (non-empty), and whenever the type-specific
construction (`build_core`) leaves `q` empty or falsy, the returned `q` is
the wildcard `*`. -/
theorem c1_q_never_empty (st qp p : Val) (pl : Dict)
    (h : build_search_payload st qp p = .ok pl) :
    (∃ v, dget pl "q" = some v ∧ truthy v = true) ∧
    (∀ pl0, build_core st qp p = .ok pl0 →
      truthy (dgetD pl0 "q" .none) = false → dget pl "q" = some (.str "*")) := by
  obtain ⟨pl1, hc, hpl⟩ := build_ok_elim h
  subst hpl
  constructor
  · exact applyQFallback_q pl1
  · intro pl0 h0 hf
    rw [hc] at h0
    injection h0 with h0
    subst h0
    exact applyQFallback_of_falsy _ hf

/-- Witness for C1: a simple search with empty query parameters and empty
request options produces the wildcard query. -/
theorem c1_q_never_empty_witness :
    ∃ v, dget [("fields", defaultFields), ("filters", Val.list [utilityFilter]),
      ("pagination", Val.dict [("offset", Val.int 0), ("limit", Val.int 100)]),
      ("q", Val.str "*"),
      ("sort", Val.list [Val.dict [("field", DEFAULT_SORT_FIELD),
                                   ("direction", Val.str "desc")]])]
      "q" = some v ∧ truthy v = true :=
  (c1_q_never_empty (.str "simple") (.dict []) (.dict []) _ rfl).1

@[simp] theorem ok_bind {α β : Type} (a : α) (f : α → Except String β) :
    ((Except.ok a : Except String α) >>= f) = f a := rfl

@[simp] theorem pure_eq_ok {α : Type} (a : α) :
    (pure a : Except String α) = .ok a := rfl

theorem fallback_upsert_q (pl0 : Dict) (s : String) (hs : s ≠ "") :
    dget (applyQFallback (upsert pl0 "q" (.str s))) "q" = some (.str s) := by
  have hq : dget (upsert pl0 "q" (.str s)) "q" = some (.str s) :=
    dget_upsert_self pl0 "q" (.str s)
  have ht : truthy (dgetD (upsert pl0 "q" (.str s)) "q" .none) = true := by
    unfold dgetD
    rw [hq]
    simpa [truthy] using hs
  rw [applyQFallback_of_truthy _ ht]
  exact hq

theorem boolTermsGo_spec (ts : List BoolTerm) :
    ∀ i, boolTermsGo (ts.map encodeTerm) i = .ok (boolQSpecParts i ts) := by
  induction ts with
  | nil => intro i; simp [boolTermsGo, boolQSpecParts]
  | cons t ts ih =>
      intro i
      obtain ⟨tf, tv, top⟩ := t
      have hf : pyGet (encodeTerm ⟨tf, tv, top⟩) "field" = .ok (.str tf) := by
        cases top <;> rfl
      have hv : pyGet (encodeTerm ⟨tf, tv, top⟩) "value" = .ok (.str tv) := by
        cases top <;> rfl
      have hop : pyGet (encodeTerm ⟨tf, tv, top⟩) "operator" =
          .ok (match top with | some o => .str o | Option.none => .none) := by
        cases top <;> rfl
      simp only [List.map_cons, boolTermsGo, hf, hv, hop, ok_bind]
      by_cases hval : tf ≠ "" ∧ tv ≠ ""
      · have hcond : (truthy (.str tf) && truthy (.str tv)) = true := by
          simp [truthy, hval.1, hval.2]
        rw [if_pos hcond]
        cases top with
        | none =>
            have hoc : ((i == 0 || (Val.none == Val.none))) = true := by
              simp [BEq.beq, valBeq]
            rw [if_pos hoc]
            simp only [ih, ok_bind]
            simp [boolQSpecParts, hval, renderBoolTerm, pyStr]
        | some o =>
            have hbeq : ((Val.str o == Val.none)) = false := rfl
            by_cases hi : i = 0
            · subst hi
              rw [if_pos (by simp [hbeq])]
              simp only [ih, ok_bind]
              simp [boolQSpecParts, hval, renderBoolTerm, pyStr]
            · rw [if_neg (by simp [hbeq, hi])]
              have hopD : pyGetD (encodeTerm ⟨tf, tv, some o⟩) "operator" (.str "AND") =
                  .ok (.str o) := rfl
              simp only [hopD, ok_bind, pyUpper, ih]
              by_cases hnot : upperStr o = "NOT"
              · rw [if_pos (by simp [hnot])]
                simp [boolQSpecParts, hval, renderBoolTerm, hi, hnot, pyStr]
              · rw [if_neg (by simp [hnot])]
                simp [boolQSpecParts, hval, renderBoolTerm, hi, hnot, pyStr]
      · have hcond : (truthy (.str tf) && truthy (.str tv)) = false := by
          rcases not_and_or.mp hval with h1 | h1
          · simp [truthy, not_not.mp h1]
          · simp [truthy, not_not.mp h1]
        rw [if_neg (by simp [hcond])]
        simp [boolQSpecParts, hval, ih]

/-- C2 counterexample: with terms `[{field: title, value: battery},
{field: status, value: active}]` (second term with no operator) the code
emits `title:battery status:active`, not the `title:battery AND
status:active` that the claimed `AND` default would produce. -/
theorem c2_and_default_counterexample :
    (∃ pl, build_search_payload (.str "boolean")
        (.dict [("terms", .list
          [.dict [("field", .str "title"), ("value", .str "battery")],
           .dict [("field", .str "status"), ("value", .str "active")]])])
        (.dict []) = .ok pl ∧
      dget pl "q" = some (.str "title:battery status:active")) ∧
    Val.str "title:battery status:active" ≠
      Val.str "title:battery AND status:active" := by
  refine ⟨⟨_, rfl, rfl⟩, ?_⟩
  simp

/-- C2 (amended): in a boolean search the terms are iterated in order; a
term with an empty or missing field or value is skipped but still consumes
its `enumerate` index; the term at index 0 and any term whose operator is
absent are emitted bare as `field:value` (there is no `AND` default for an
operator-less later term); every other term is emitted as
`OPERATOR field:value` with the operator uppercased (`NOT` included); `q` is
the space-join of the emitted pieces, or `*` when none survive. -/
theorem c2_boolean_q_amended (ts : List BoolTerm) (p : Val) (pl : Dict)
    (h : build_search_payload (.str "boolean")
      (.dict [("terms", .list (ts.map encodeTerm))]) p = .ok pl) :
    dget pl "q" = some (.str (boolQSpec ts)) := by
  obtain ⟨pl1, hc, hpl⟩ := build_ok_elim h
  obtain ⟨pl0, hpre, hbr⟩ := core_ok_elim hc
  subst hpl
  unfold apply_search_type at hbr
  rw [if_pos (show isStr (.str "boolean") "boolean" = true from rfl)] at hbr
  rw [show pyGetD (Val.dict [("terms", Val.list (ts.map encodeTerm))]) "terms"
    (Val.list []) = .ok (Val.list (ts.map encodeTerm)) from rfl] at hbr
  simp only [ok_bind] at hbr
  rw [show pyIter (Val.list (ts.map encodeTerm)) = .ok (ts.map encodeTerm)
    from rfl] at hbr
  simp only [ok_bind] at hbr
  rw [boolTermsGo_spec ts 0] at hbr
  simp only [ok_bind, pure_eq_ok] at hbr
  injection hbr with hbr
  subst hbr
  have hval : (if (" ".intercalate (boolQSpecParts 0 ts) == "") = true
      then "*" else " ".intercalate (boolQSpecParts 0 ts)) = boolQSpec ts := by
    unfold boolQSpec
    by_cases hj : " ".intercalate (boolQSpecParts 0 ts) = ""
    · simp [hj]
    · simp [hj]
  rw [hval]
  apply fallback_upsert_q
  unfold boolQSpec
  by_cases hj : " ".intercalate (boolQSpecParts 0 ts) = ""
  · simp [hj]
  · simp [hj]

/-- Witness for C2 (amended): the end-to-end example of the claim, terms
`[{field: title, value: battery}, {field: status, value: active,
operator: NOT}]`, produces `q = "title:battery NOT status:active"`. -/
theorem c2_boolean_q_amended_witness :
    boolQSpec [⟨"title", "battery", Option.none⟩, ⟨"status", "active", some "NOT"⟩]
        = "title:battery NOT status:active" ∧
    ∃ pl, build_search_payload (.str "boolean")
        (.dict [("terms", .list (([⟨"title", "battery", Option.none⟩,
          ⟨"status", "active", some "NOT"⟩] : List BoolTerm).map encodeTerm))])
        (.dict []) = .ok pl ∧
      dget pl "q" = some (.str (boolQSpec [⟨"title", "battery", Option.none⟩,
        ⟨"status", "active", some "NOT"⟩])) := by
  refine ⟨rfl, ?_⟩
  refine ⟨_, rfl, ?_⟩
  exact c2_boolean_q_amended _ (.dict []) _ rfl

/-- C4 counterexample: a field_specific search with both field and value
missing yields `q = ":"`, which is a non-empty string, so the wildcard
fallback never fires and `q` is not `*` as claimed. -/
theorem c4_fallback_counterexample :
    (∃ pl, build_search_payload (.str "field_specific") (.dict []) (.dict [])
        = .ok pl ∧ dget pl "q" = some (.str ":")) ∧
    Val.str ":" ≠ Val.str "*" := by
  refine ⟨⟨_, rfl, rfl⟩, ?_⟩
  simp

/-- C4 (amended): for a field_specific search the payload's `q` is always
the literal interpolation `<field>:<value>` — with empty pieces included
verbatim (`":"` when both are missing) — and never the wildcard fallback,
because the embedded colon makes the interpolation a non-empty, truthy
string. -/
theorem c4_field_specific_q_amended (qp p : Val) (pl : Dict) (f v : Val)
    (h : build_search_payload (.str "field_specific") qp p = .ok pl)
    (hf : pyGetD qp "field" (.str "") = .ok f)
    (hv : pyGetD qp "value" (.str "") = .ok v) :
    dget pl "q" = some (.str (pyStr f ++ ":" ++ pyStr v)) := by
  obtain ⟨pl1, hc, hpl⟩ := build_ok_elim h
  obtain ⟨pl0, hpre, hbr⟩ := core_ok_elim hc
  subst hpl
  unfold apply_search_type at hbr
  rw [if_neg (show ¬ isStr (Val.str "field_specific") "boolean" = true from
        by decide),
      if_neg (show ¬ isStr (Val.str "field_specific") "wildcard" = true from
        by decide),
      if_pos (show isStr (Val.str "field_specific") "field_specific" = true from
        rfl)] at hbr
  rw [hf] at hbr
  simp only [ok_bind] at hbr
  rw [hv] at hbr
  simp only [ok_bind, pure_eq_ok] at hbr
  injection hbr with hbr
  subst hbr
  apply fallback_upsert_q
  intro heq
  have hlen := congrArg String.length heq
  simp [String.length_append] at hlen
  exact absurd hlen.1.2 (by decide)

/-- Witness for C4 (amended): with field and value both missing the
payload's `q` is the bare colon. -/
theorem c4_field_specific_q_amended_witness :
    ∃ pl, build_search_payload (.str "field_specific") (.dict []) (.dict [])
        = .ok pl ∧
      dget pl "q" = some (.str (pyStr (.str "") ++ ":" ++ pyStr (.str ""))) := by
  refine ⟨_, rfl, ?_⟩
  exact c4_field_specific_q_amended (.dict []) (.dict []) _ (.str "") (.str "")
    rfl rfl rfl

/-- C3: the export path writes 100 into `search_params['pagination']['limit']`
(first conjunct), but `build_search_payload` reads the top-level `limit` key,
so the payload the export-triggered search would post still carries the
original embedded limit 5, not 100 (second and third conjuncts): the
override is a dead write and the claimed batch-size override never reaches
the upstream payload. -/
theorem c3_export_limit_bug :
    export_override (.dict [("search_type", .str "simple"),
      ("query_params", .dict []), ("limit", .int 5),
      ("pagination", .dict [("limit", .int 5)])]) =
      .ok (.dict [("search_type", .str "simple"), ("query_params", .dict []),
        ("limit", .int 5), ("pagination", .dict [("limit", .int 100)])]) ∧
    (∃ pl, export_to_csv (.dict [("search_params", .dict
        [("search_type", .str "simple"), ("query_params", .dict []),
         ("limit", .int 5), ("pagination", .dict [("limit", .int 5)])])])
      = .ok (.searchSend pl) ∧
      dget pl "pagination" = some (.dict [("offset", .int 0), ("limit", .int 5)])) ∧
    Val.dict [("offset", .int 0), ("limit", .int 5)] ≠
      Val.dict [("offset", .int 0), ("limit", .int 100)] := by
  refine ⟨rfl, ⟨_, rfl, rfl⟩, ?_⟩
  simp

theorem apiLoop_rate_limited (script : Nat → NetEvent) (mr : Nat) (rd : Int)
    (attempt k : Nat) (sleeps : List Int) (hdr : Option String)
    (jb : Except String Val) (t : String)
    (hs : script attempt = .response 429 hdr jb t)
    (hlt : attempt < mr - 1) :
    apiLoop script mr rd attempt (k + 1) sleeps =
      (retryAfterVal hdr rd) >>= fun ra =>
        apiLoop script mr rd (attempt + 1) k (sleeps ++ [ra]) := by
  simp only [apiLoop, hs]
  rw [if_pos (show ((429 == 429 && decide (attempt < mr - 1))) = true from
    by simp [hlt])]

theorem apiLoop_success_200 (script : Nat → NetEvent) (mr : Nat) (rd : Int)
    (attempt k : Nat) (sleeps : List Int) (hdr : Option String) (data : Val)
    (t : String)
    (hs : script attempt = .response 200 hdr (.ok data) t) :
    apiLoop script mr rd attempt (k + 1) sleeps =
      .ok ([("success", .bool true), ("data", data)], sleeps) := by
  simp [apiLoop, hs]

/-- C5: against an upstream that answers 429, 429, then 200, the retry
client with `max_retries = 3` returns success with the parsed 200 body,
sleeps exactly twice, and each sleep duration is the integer value of the
`Retry-After` header when present, else the default retry delay
(`retryAfterVal`); the retried 429 responses leave no error in the result. -/
theorem c5_retry_sequence (script : Nat → NetEvent) (hdr1 hdr2 : Option String)
    (retry_delay v1 v2 : Int) (data : Val) (j1 j2 : Except String Val)
    (t1 t2 t3 : String)
    (hs0 : script 0 = .response 429 hdr1 j1 t1)
    (hs1 : script 1 = .response 429 hdr2 j2 t2)
    (hs2 : script 2 = .response 200 Option.none (.ok data) t3)
    (h1 : retryAfterVal hdr1 retry_delay = .ok v1)
    (h2 : retryAfterVal hdr2 retry_delay = .ok v2) :
    make_api_request script 3 retry_delay =
      .ok ([("success", .bool true), ("data", data)], [v1, v2]) := by
  unfold make_api_request
  rw [apiLoop_rate_limited script 3 retry_delay 0 2 [] hdr1 j1 t1 hs0
    (by norm_num), h1]
  simp only [ok_bind, List.nil_append]
  rw [apiLoop_rate_limited script 3 retry_delay 1 1 [v1] hdr2 j2 t2 hs1
    (by norm_num), h2]
  simp only [ok_bind]
  rw [apiLoop_success_200 script 3 retry_delay 2 0 ([v1] ++ [v2]) Option.none
    data t3 hs2]
  rfl

/-- Witness for C5: first 429 carries `Retry-After: 5`, second has no
header; with default delay 2 the client sleeps 5 then 2 seconds and returns
the 200 body. -/
theorem c5_retry_sequence_witness :
    make_api_request
      (fun i => if i = 0 then .response 429 (some "5") (.error "") ""
                else if i = 1 then .response 429 Option.none (.error "") ""
                else .response 200 Option.none (.ok (.dict [("count", .int 7)])) "")
      3 2
      = .ok ([("success", .bool true), ("data", .dict [("count", .int 7)])],
             [5, 2]) :=
  c5_retry_sequence _ (some "5") Option.none 2 5 2 (.dict [("count", .int 7)])
    (.error "") (.error "") "" "" "" rfl rfl rfl rfl rfl

/-- C7 counterexample: for a boolean search whose `terms` value is the
non-iterable integer 5, building the payload raises, but the returned error
is `Error building search payload: ...` — produced by the catch inside
`search_patents` — and does not carry the dispatcher's
`Operation error: ` prefix that the claim requires. -/
theorem c7_dispatcher_counterexample :
    run_operation (.str "search")
      (.dict [("search_type", .str "boolean"),
              ("query_params", .dict [("terms", .int 5)])]) =
      .ok (.result (errResult
        ("Error building search payload: TypeError: int object is not iterable"))) ∧
    ("Operation error: ".data.isPrefixOf
      "Error building search payload: TypeError: int object is not iterable".data)
      = false := by
  exact ⟨rfl, rfl⟩

/-- C7 (amended): an exception raised by `build_search_payload` during a
search is caught inside `search_patents` itself (lines 84-91), which returns
`{success: false, error: "Error building search payload: <message>"}`; the
dispatcher passes that result through unchanged rather than converting the
exception into an `Operation error:` failure (its catch-all applies only to
exceptions that escape the handler). -/
theorem c7_build_error_caught_amended (params st qp : Val) (e : String)
    (hst : pyGetD params "search_type" (.str "simple") = .ok st)
    (hin : valStrIn st SEARCH_TYPES = true)
    (hqp : pyGetD params "query_params" (.dict []) = .ok qp)
    (hb : build_search_payload st qp params = .error e) :
    run_operation (.str "search") params =
      .ok (.result (errResult ("Error building search payload: " ++ e))) := by
  have hne : (params == Val.none) = false := by
    cases params
    · exfalso; simp [pyGetD] at hst
    all_goals rfl
  have hsp : search_patents params =
      .ok (.result (errResult ("Error building search payload: " ++ e))) := by
    unfold search_patents validate_search_params
    rw [hst]
    simp only [ok_bind]
    rw [if_neg (by simp [hin])]
    rw [hqp]
    simp only [ok_bind]
    rw [hb]
    rfl
  unfold run_operation
  rw [show registryContains (Val.str "search") = .ok true from rfl]
  simp only [ok_bind, hne]
  simp [isStr, hsp]

/-- C8: for every operation name outside the registry and every params
value, the dispatcher returns the `Unknown operation type` failure (whose
text depends only on the name, so no handler contributes to the result). -/
theorem c8_unknown_operation (s : String) (params : Val)
    (h : OPERATIONS.contains s = false) :
    run_operation (.str s) params =
      .ok (.result (errResult ("Unknown operation type: " ++ s))) := by
  unfold run_operation
  rw [show registryContains (Val.str s) = .ok (OPERATIONS.contains s) from rfl, h]
  simp only [ok_bind]
  rfl

/-- Witness for C8: `run_operation("bogus", {})` yields the unknown-
operation failure. -/
theorem c8_unknown_operation_witness :
    run_operation (.str "bogus") (.dict []) =
      .ok (.result (errResult ("Unknown operation type: " ++ "bogus"))) :=
  c8_unknown_operation "bogus" (.dict []) rfl

/-- C9: for every params value, dispatching `test_connection` raises the
arity `TypeError` (the dispatcher passes one positional argument to a
zero-argument handler), which the catch-all converts into an
`Operation error` failure — the connectivity test itself never runs. -/
theorem c9_test_connection_dispatch (params : Val) :
    run_operation (.str "test_connection") params =
      .ok (.result (errResult ("Operation error: " ++
        "test_api_connection() takes 0 positional arguments but 1 was given"))) := by
  unfold run_operation
  simp only [show registryContains (Val.str "test_connection") = .ok true from rfl,
    ok_bind]
  rfl

/-- Witness for C7 (amended): the malformed boolean `terms` value 5 produces
the `search_patents`-level failure text. -/
theorem c7_build_error_caught_amended_witness :
    run_operation (.str "search")
      (.dict [("search_type", .str "boolean"),
              ("query_params", .dict [("terms", .int 5)])]) =
      .ok (.result (errResult ("Error building search payload: " ++
        "TypeError: int object is not iterable"))) :=
  c7_build_error_caught_amended _ (.str "boolean") (.dict [("terms", .int 5)])
    "TypeError: int object is not iterable" rfl rfl rfl rfl

theorem payload_pre_filters {st qp p : Val} {pl0 : Dict}
    (h : payload_pre st qp p = .ok pl0) :
    dget pl0 "filters" = some (.list [utilityFilter]) := by
  obtain ⟨fv, pg, qv, sv, r, _, rfl⟩ := payload_pre_shape h
  simp [dget]

theorem apply_search_type_filters {st qp : Val} {pl0 pl1 : Dict}
    (h : apply_search_type st qp pl0 = .ok pl1)
    (hf : dget pl0 "filters" = some (.list [utilityFilter])) :
    ∃ rest, dget pl1 "filters" = some (.list (utilityFilter :: rest)) := by
  unfold apply_search_type at h
  by_cases hb : isStr st "boolean" = true
  · rw [if_pos hb] at h
    obtain ⟨termsV, h1, h⟩ := bind_ok_elim h
    obtain ⟨terms, h2, h⟩ := bind_ok_elim h
    obtain ⟨qs, h3, h⟩ := bind_ok_elim h
    injection h with h
    rw [← h, dget_upsert_other _ _ _ _ (by decide)]
    exact ⟨[], hf⟩
  rw [if_neg hb] at h
  by_cases hw : isStr st "wildcard" = true
  · rw [if_pos hw] at h
    obtain ⟨f, h1, h⟩ := bind_ok_elim h
    obtain ⟨v, h2, h⟩ := bind_ok_elim h
    injection h with h
    rw [← h, dget_upsert_other _ _ _ _ (by decide)]
    exact ⟨[], hf⟩
  rw [if_neg hw] at h
  by_cases hfs : isStr st "field_specific" = true
  · rw [if_pos hfs] at h
    obtain ⟨f, h1, h⟩ := bind_ok_elim h
    obtain ⟨v, h2, h⟩ := bind_ok_elim h
    injection h with h
    rw [← h, dget_upsert_other _ _ _ _ (by decide)]
    exact ⟨[], hf⟩
  rw [if_neg hfs] at h
  by_cases hr : isStr st "range" = true
  · rw [if_pos hr] at h
    obtain ⟨f, h1, h⟩ := bind_ok_elim h
    obtain ⟨vf, h2, h⟩ := bind_ok_elim h
    obtain ⟨vt, h3, h⟩ := bind_ok_elim h
    by_cases hc : (truthy vf && truthy vt) = true
    · rw [if_pos hc] at h
      obtain ⟨existing, h4, h⟩ := bind_ok_elim h
      obtain ⟨replaced, h5, h⟩ := bind_ok_elim h
      injection h with h
      rw [← h, dget_upsert_other _ _ _ _ (by decide)]
      by_cases hrs : (dget pl0 "rangeFilters").isSome
      · rw [if_pos hrs]
        exact ⟨[], hf⟩
      · rw [if_neg hrs, dget_upsert_other _ _ _ _ (by decide)]
        exact ⟨[], hf⟩
    · rw [if_neg hc] at h
      injection h with h
      rw [← h]
      exact ⟨[], hf⟩
  rw [if_neg hr] at h
  by_cases hfl : isStr st "filtered" = true
  · rw [if_pos hfl] at h
    obtain ⟨f, h1, h⟩ := bind_ok_elim h
    obtain ⟨v, h2, h⟩ := bind_ok_elim h
    by_cases hc : (truthy f && truthy v) = true
    · rw [if_pos hc] at h
      obtain ⟨app, h3, h⟩ := bind_ok_elim h
      rw [show dgetD pl0 "filters" (.list []) = .list [utilityFilter] from by
        unfold dgetD; rw [hf]; rfl] at h3
      have happ : app =
          .list ([utilityFilter] ++ [.dict [("name", f), ("value", .list [v])]]) := by
        simpa [pyAppend] using h3.symm
      injection h with h
      rw [← h, happ, dget_upsert_self]
      exact ⟨[.dict [("name", f), ("value", .list [v])]], rfl⟩
    · rw [if_neg hc] at h
      injection h with h
      rw [← h]
      exact ⟨[], hf⟩
  rw [if_neg hfl] at h
  by_cases hfa : isStr st "faceted" = true
  · rw [if_pos hfa] at h
    obtain ⟨facets, h1, h⟩ := bind_ok_elim h
    injection h with h
    rw [← h]
    by_cases hc : truthy facets = true
    · rw [if_pos hc, dget_upsert_other _ _ _ _ (by decide)]
      exact ⟨[], hf⟩
    · rw [if_neg hc]
      exact ⟨[], hf⟩
  · rw [if_neg hfa] at h
    injection h with h
    rw [← h]
    exact ⟨[], hf⟩

/-- C10: every payload's `filters` list starts with the hard-coded
`{name: applicationMetaData.applicationTypeLabelName, value: [Utility]}`
entry (first conjunct, every search type and input); a filtered search with
truthy field and value appends its filter after that entry instead of
replacing it (second conjunct). -/
theorem c10_filters_head_utility :
    (∀ st qp p pl, build_search_payload st qp p = .ok pl →
      ∃ rest, dget pl "filters" = some (.list (utilityFilter :: rest))) ∧
    (∀ qp p pl f v, build_search_payload (.str "filtered") qp p = .ok pl →
      pyGetD qp "field" (.str "") = .ok f → truthy f = true →
      pyGetD qp "value" (.str "") = .ok v → truthy v = true →
      dget pl "filters" = some (.list [utilityFilter,
        .dict [("name", f), ("value", .list [v])]])) := by
  constructor
  · intro st qp p pl h
    obtain ⟨pl1, hc, hpl⟩ := build_ok_elim h
    obtain ⟨pl0, hpre, hbr⟩ := core_ok_elim hc
    subst hpl
    obtain ⟨rest, hrest⟩ :=
      apply_search_type_filters hbr (payload_pre_filters hpre)
    exact ⟨rest, by rw [dget_applyQFallback_other _ _ (by decide), hrest]⟩
  · intro qp p pl f v h hfld htf hval htv
    obtain ⟨pl1, hc, hpl⟩ := build_ok_elim h
    obtain ⟨pl0, hpre, hbr⟩ := core_ok_elim hc
    subst hpl
    have hf0 := payload_pre_filters hpre
    unfold apply_search_type at hbr
    rw [if_neg (by decide), if_neg (by decide), if_neg (by decide),
        if_neg (by decide), if_pos (by decide)] at hbr
    obtain ⟨f2, h1, hbr⟩ := bind_ok_elim hbr
    obtain ⟨v2, h2, hbr⟩ := bind_ok_elim hbr
    rw [hfld] at h1
    injection h1 with h1
    subst h1
    rw [hval] at h2
    injection h2 with h2
    subst h2
    rw [if_pos (by simp [htf, htv])] at hbr
    obtain ⟨app, h3, hbr⟩ := bind_ok_elim hbr
    rw [show dgetD pl0 "filters" (.list []) = .list [utilityFilter] from by
      unfold dgetD; rw [hf0]; rfl] at h3
    have happ : app =
        .list ([utilityFilter] ++ [.dict [("name", f), ("value", .list [v])]]) := by
      simpa [pyAppend] using h3.symm
    injection hbr with hbr
    rw [← hbr, dget_applyQFallback_other _ _ (by decide), happ, dget_upsert_self]
    rfl

/-- Witness for C10: a filtered search on `status = active` produces the
Utility filter first and the requested filter second. -/
theorem c10_filters_head_utility_witness :
    ∃ pl, build_search_payload (.str "filtered")
        (.dict [("field", .str "status"), ("value", .str "active")]) (.dict [])
        = .ok pl ∧
      dget pl "filters" = some (.list [utilityFilter,
        .dict [("name", .str "status"), ("value", .list [.str "active"])]]) := by
  refine ⟨_, rfl, ?_⟩
  exact c10_filters_head_utility.2
    (.dict [("field", .str "status"), ("value", .str "active")]) (.dict []) _
    (.str "status") (.str "active") rfl rfl rfl rfl rfl

/-- C6 counterexample: a range-type search (without a date range) first sets
`sort` and only then creates `rangeFilters`, so the emitted key order ends
`..., q, sort, rangeFilters` — not the claimed fixed order
`..., q, rangeFilters, sort`. -/
theorem c6_key_order_counterexample :
    (build_search_payload (.str "range")
      (.dict [("field", .str "examinerName"), ("valueFrom", .str "a"),
              ("valueTo", .str "b")]) (.dict [])).map keys =
      .ok ["fields", "filters", "pagination", "q", "sort", "rangeFilters"] ∧
    (["fields", "filters", "pagination", "q", "sort", "rangeFilters"] :
        List String) ≠
      ["fields", "filters", "pagination", "q", "rangeFilters", "sort"] :=
  ⟨rfl, by decide⟩

theorem payload_pre_keys {st qp p : Val} {pl0 : Dict}
    (h : payload_pre st qp p = .ok pl0) :
    keys pl0 = ["fields", "filters", "pagination", "q", "sort"] ∨
    keys pl0 = ["fields", "filters", "pagination", "q", "rangeFilters", "sort"] := by
  obtain ⟨fv, pg, qv, sv, r, hr, rfl⟩ := payload_pre_shape h
  rcases hr with hr | ⟨rv, hr⟩
  · subst hr; left; simp [keys]
  · subst hr; right; simp [keys]

theorem keys_applyQFallback (d : Dict) (h : "q" ∈ keys d) :
    keys (applyQFallback d) = keys d := by
  unfold applyQFallback
  by_cases hc : truthy (dgetD d "q" .none) = true
  · rw [if_pos hc]
  · rw [if_neg hc]
    exact keys_upsert_of_mem d "q" _ h

theorem apply_search_type_keys {st qp : Val} {pl0 pl1 : Dict}
    (h : apply_search_type st qp pl0 = .ok pl1)
    (hA : keys pl0 = ["fields", "filters", "pagination", "q", "sort"] ∨
          keys pl0 = ["fields", "filters", "pagination", "q", "rangeFilters", "sort"]) :
    keys pl1 = ["fields", "filters", "pagination", "q", "sort"] ∨
    keys pl1 = ["fields", "filters", "pagination", "q", "rangeFilters", "sort"] ∨
    keys pl1 = ["fields", "filters", "pagination", "q", "sort", "rangeFilters"] ∨
    keys pl1 = ["fields", "filters", "pagination", "q", "sort", "facets"] ∨
    keys pl1 = ["fields", "filters", "pagination", "q", "rangeFilters", "sort",
                "facets"] := by
  have hq : "q" ∈ keys pl0 := by
    rcases hA with hA | hA <;> rw [hA] <;> decide
  have hfil : "filters" ∈ keys pl0 := by
    rcases hA with hA | hA <;> rw [hA] <;> decide
  have hfac : "facets" ∉ keys pl0 := by
    rcases hA with hA | hA <;> rw [hA] <;> decide
  unfold apply_search_type at h
  by_cases hb : isStr st "boolean" = true
  · rw [if_pos hb] at h
    obtain ⟨termsV, h1, h⟩ := bind_ok_elim h
    obtain ⟨terms, h2, h⟩ := bind_ok_elim h
    obtain ⟨qs, h3, h⟩ := bind_ok_elim h
    injection h with h
    rw [← h, keys_upsert_of_mem _ _ _ hq]
    rcases hA with hA | hA
    · exact Or.inl hA
    · exact Or.inr (Or.inl hA)
  rw [if_neg hb] at h
  by_cases hw : isStr st "wildcard" = true
  · rw [if_pos hw] at h
    obtain ⟨f, h1, h⟩ := bind_ok_elim h
    obtain ⟨v, h2, h⟩ := bind_ok_elim h
    injection h with h
    rw [← h, keys_upsert_of_mem _ _ _ hq]
    rcases hA with hA | hA
    · exact Or.inl hA
    · exact Or.inr (Or.inl hA)
  rw [if_neg hw] at h
  by_cases hfs : isStr st "field_specific" = true
  · rw [if_pos hfs] at h
    obtain ⟨f, h1, h⟩ := bind_ok_elim h
    obtain ⟨v, h2, h⟩ := bind_ok_elim h
    injection h with h
    rw [← h, keys_upsert_of_mem _ _ _ hq]
    rcases hA with hA | hA
    · exact Or.inl hA
    · exact Or.inr (Or.inl hA)
  rw [if_neg hfs] at h
  by_cases hr : isStr st "range" = true
  · rw [if_pos hr] at h
    obtain ⟨f, h1, h⟩ := bind_ok_elim h
    obtain ⟨vf, h2, h⟩ := bind_ok_elim h
    obtain ⟨vt, h3, h⟩ := bind_ok_elim h
    by_cases hc : (truthy vf && truthy vt) = true
    · rw [if_pos hc] at h
      obtain ⟨existing, h4, h⟩ := bind_ok_elim h
      obtain ⟨replaced, h5, h⟩ := bind_ok_elim h
      injection h with h
      rcases hA with hA | hA
      · have hnr : "rangeFilters" ∉ keys pl0 := by rw [hA]; decide
        have hns : ¬ (dget pl0 "rangeFilters").isSome = true := by
          intro hh
          exact hnr ((mem_keys_iff_dget_isSome pl0 "rangeFilters").mpr hh)
        have hk2 : keys (upsert pl0 "rangeFilters" (Val.list [])) =
            keys pl0 ++ ["rangeFilters"] := keys_upsert_of_not_mem _ _ _ hnr
        have hm2 : "rangeFilters" ∈ keys (upsert pl0 "rangeFilters" (Val.list [])) := by
          rw [hk2]; simp
        rw [← h, if_neg hns, keys_upsert_of_mem _ _ _ hm2, hk2, hA]
        exact Or.inr (Or.inr (Or.inl rfl))
      · have hmr : "rangeFilters" ∈ keys pl0 := by rw [hA]; decide
        have hsome : (dget pl0 "rangeFilters").isSome = true :=
          (mem_keys_iff_dget_isSome _ _).mp hmr
        rw [← h, if_pos hsome, keys_upsert_of_mem _ _ _ hmr, hA]
        exact Or.inr (Or.inl rfl)
    · rw [if_neg hc] at h
      injection h with h
      rw [← h]
      rcases hA with hA | hA
      · exact Or.inl hA
      · exact Or.inr (Or.inl hA)
  rw [if_neg hr] at h
  by_cases hfl : isStr st "filtered" = true
  · rw [if_pos hfl] at h
    obtain ⟨f, h1, h⟩ := bind_ok_elim h
    obtain ⟨v, h2, h⟩ := bind_ok_elim h
    by_cases hc : (truthy f && truthy v) = true
    · rw [if_pos hc] at h
      obtain ⟨app, h3, h⟩ := bind_ok_elim h
      injection h with h
      rw [← h, keys_upsert_of_mem _ _ _ hfil]
      rcases hA with hA | hA
      · exact Or.inl hA
      · exact Or.inr (Or.inl hA)
    · rw [if_neg hc] at h
      injection h with h
      rw [← h]
      rcases hA with hA | hA
      · exact Or.inl hA
      · exact Or.inr (Or.inl hA)
  rw [if_neg hfl] at h
  by_cases hfa : isStr st "faceted" = true
  · rw [if_pos hfa] at h
    obtain ⟨facets, h1, h⟩ := bind_ok_elim h
    injection h with h
    by_cases hc : truthy facets = true
    · rw [← h, if_pos hc, keys_upsert_of_not_mem _ _ _ hfac]
      rcases hA with hA | hA
      · rw [hA]
        exact Or.inr (Or.inr (Or.inr (Or.inl rfl)))
      · rw [hA]
        exact Or.inr (Or.inr (Or.inr (Or.inr rfl)))
    · rw [← h, if_neg hc]
      rcases hA with hA | hA
      · exact Or.inl hA
      · exact Or.inr (Or.inl hA)
  · rw [if_neg hfa] at h
    injection h with h
    rw [← h]
    rcases hA with hA | hA
    · exact Or.inl hA
    · exact Or.inr (Or.inl hA)

/-- C6 (amended): `build_search_payload` is a pure, deterministic function
of its inputs, and its key order always begins `fields, filters, pagination,
q`; `sort` follows, with `rangeFilters` emitted before `sort` when a date
range is supplied, after `sort` when a range-type search creates it, and
`facets` appended after `sort` by a faceted search — one of exactly five
key sequences. -/
theorem c6_key_order_amended (st qp p : Val) (pl : Dict)
    (h : build_search_payload st qp p = .ok pl) :
    keys pl = ["fields", "filters", "pagination", "q", "sort"] ∨
    keys pl = ["fields", "filters", "pagination", "q", "rangeFilters", "sort"] ∨
    keys pl = ["fields", "filters", "pagination", "q", "sort", "rangeFilters"] ∨
    keys pl = ["fields", "filters", "pagination", "q", "sort", "facets"] ∨
    keys pl = ["fields", "filters", "pagination", "q", "rangeFilters", "sort",
               "facets"] := by
  obtain ⟨pl1, hc, hpl⟩ := build_ok_elim h
  obtain ⟨pl0, hpre, hbr⟩ := core_ok_elim hc
  subst hpl
  have h5 := apply_search_type_keys hbr (payload_pre_keys hpre)
  have hq1 : "q" ∈ keys pl1 := by
    rcases h5 with h5 | h5 | h5 | h5 | h5 <;> rw [h5] <;> decide
  rw [keys_applyQFallback _ hq1]
  exact h5

/-- Witness for C6 (amended): a simple search with empty inputs emits the
five base keys in order. -/
theorem c6_key_order_amended_witness :
    keys [("fields", defaultFields), ("filters", Val.list [utilityFilter]),
      ("pagination", Val.dict [("offset", Val.int 0), ("limit", Val.int 100)]),
      ("q", Val.str "*"),
      ("sort", Val.list [Val.dict [("field", DEFAULT_SORT_FIELD),
                                   ("direction", Val.str "desc")]])]
      = ["fields", "filters", "pagination", "q", "sort"] ∨
    keys [("fields", defaultFields), ("filters", Val.list [utilityFilter]),
      ("pagination", Val.dict [("offset", Val.int 0), ("limit", Val.int 100)]),
      ("q", Val.str "*"),
      ("sort", Val.list [Val.dict [("field", DEFAULT_SORT_FIELD),
                                   ("direction", Val.str "desc")]])]
      = ["fields", "filters", "pagination", "q", "rangeFilters", "sort"] ∨
    keys [("fields", defaultFields), ("filters", Val.list [utilityFilter]),
      ("pagination", Val.dict [("offset", Val.int 0), ("limit", Val.int 100)]),
      ("q", Val.str "*"),
      ("sort", Val.list [Val.dict [("field", DEFAULT_SORT_FIELD),
                                   ("direction", Val.str "desc")]])]
      = ["fields", "filters", "pagination", "q", "sort", "rangeFilters"] ∨
    keys [("fields", defaultFields), ("filters", Val.list [utilityFilter]),
      ("pagination", Val.dict [("offset", Val.int 0), ("limit", Val.int 100)]),
      ("q", Val.str "*"),
      ("sort", Val.list [Val.dict [("field", DEFAULT_SORT_FIELD),
                                   ("direction", Val.str "desc")]])]
      = ["fields", "filters", "pagination", "q", "sort", "facets"] ∨
    keys [("fields", defaultFields), ("filters", Val.list [utilityFilter]),
      ("pagination", Val.dict [("offset", Val.int 0), ("limit", Val.int 100)]),
      ("q", Val.str "*"),
      ("sort", Val.list [Val.dict [("field", DEFAULT_SORT_FIELD),
                                   ("direction", Val.str "desc")]])]
      = ["fields", "filters", "pagination", "q", "rangeFilters", "sort",
         "facets"] :=
  c6_key_order_amended (.str "simple") (.dict []) (.dict []) _ rfl

/-- Witness for C9: dispatching `test_connection` with the empty params dict
yields the arity failure. -/
theorem c9_test_connection_dispatch_witness :
    run_operation (.str "test_connection") (.dict []) =
      .ok (.result (errResult ("Operation error: " ++
        "test_api_connection() takes 0 positional arguments but 1 was given"))) :=
  c9_test_connection_dispatch (.dict [])
